import Mathlib

/-!
Shallow embedding of the vin-car repository's core: the identifier
validator (`src/validators.py`), the credit ledger and payment flow
(`src/payment_service.py`, `src/models.py`), the ticket store
(`src/db_adapter.py`) and the handler-level lifecycle operations
(`src/handlers/callbacks.py`, `src/handlers/manager.py`,
`src/handlers/user.py`).

Python strings are modelled as `List Char`; Python `int` as `Int`;
nullable fields as `Option`; per-key database tables as functions
`Int → Option row`.  Timestamps are opaque integers threaded in as
parameters where the code writes `datetime.utcnow()`.
-/

namespace VinCar

/-! ### Identifier validator (`src/validators.py`, class VINValidator) -/

/-- Python strings modelled as lists of characters. -/
abbrev PyStr := List Char

/-- The whitespace characters removed by Python `str.strip()`
(restricted to the ASCII whitespace set). -/
def pyIsSpace (c : Char) : Bool :=
  c = ' ' || c = '\t' || c = '\n' || c = '\r' || c = '\x0b' || c = '\x0c'

/-- Python `str.strip()`: drop whitespace from both ends. -/
def pyStrip (s : PyStr) : PyStr :=
  ((s.dropWhile pyIsSpace).reverse.dropWhile pyIsSpace).reverse

/-- Python `str.upper()` on a single character (ASCII range, which is
all the validator distinguishes). -/
def pyToUpper (c : Char) : Char := c.toUpper

/-- `VINValidator.normalize`: `vin.strip().upper()`. -/
def normalize (vin : PyStr) : PyStr := (pyStrip vin).map pyToUpper

/-- `VINValidator.FORBIDDEN_CHARS = {"I", "O", "Q"}`. -/
def forbiddenChar (c : Char) : Bool := c = 'I' || c = 'O' || c = 'Q'

/-- One character of the regex class `[A-HJ-NPR-Z0-9]`
(`VINValidator.VIN_PATTERN`). -/
def vinAlphabetChar (c : Char) : Bool :=
  ('A' ≤ c && c ≤ 'H') || ('J' ≤ c && c ≤ 'N') || c = 'P' ||
  ('R' ≤ c && c ≤ 'Z') || ('0' ≤ c && c ≤ '9')

/-- The four failure categories of `VINValidator.validate`.  The source
returns distinct human-readable message strings; per the contract only
the category taxonomy matters, so the messages are modelled by their
category. -/
inductive VinError
  | empty
  | wrongLength
  | forbiddenPresent
  | invalidChar
deriving DecidableEq, Repr

/-- `VINValidator.validate`: the `(ok, reason)` pair.  Follows the
source line by line: falsy (empty) check, strip+upper, length check,
forbidden-set intersection check, regex check. -/
def validate (vin : PyStr) : Bool × Option VinError :=
  if vin = [] then (false, some .empty)
  else
    let cleaned := normalize vin
    if cleaned.length ≠ 17 then (false, some .wrongLength)
    else if cleaned.any forbiddenChar then (false, some .forbiddenPresent)
    else if ¬ (cleaned.all vinAlphabetChar ∧ cleaned.length = 17) then
      (false, some .invalidChar)
    else (true, none)

/-! ### Credit ledger (`src/models.py` UserSubscription,
`src/payment_service.py` PaymentService) -/

/-- A row of `user_subscriptions` (`models.UserSubscription`).  The
timestamp bookkeeping columns are not modelled. -/
structure UserSubscription where
  user_id : Int
  reports_remaining : Int
  total_reports : Int
deriving DecidableEq, Repr

/-- `UserSubscription.can_generate_report`. -/
def canGenerateReport (s : UserSubscription) : Bool :=
  s.reports_remaining > 0

/-- `UserSubscription.use_report`: returns the success flag and the
(possibly mutated) row. -/
def useReport (s : UserSubscription) : Bool × UserSubscription :=
  if s.reports_remaining > 0 then
    (true, { s with reports_remaining := s.reports_remaining - 1 })
  else (false, s)

/-- The `user_subscriptions` table keyed by `user_id` (the unique key). -/
def SubDB : Type := Int → Option UserSubscription

/-- Point update of a subscription row. -/
def putSub (db : SubDB) (uid : Int) (s : UserSubscription) : SubDB :=
  fun v => if v = uid then some s else db v

/-- `PaymentService.create_user_subscription` restricted to the row it
touches: update an existing row by adding `reports_count` to both
counters, or create a fresh row with both counters equal to
`reports_count`. -/
def createUserSubscriptionRow (row : Option UserSubscription)
    (uid reports_count : Int) : UserSubscription :=
  match row with
  | some s =>
      { s with reports_remaining := s.reports_remaining + reports_count,
               total_reports := s.total_reports + reports_count }
  | none =>
      { user_id := uid, reports_remaining := reports_count,
        total_reports := reports_count }

/-- `PaymentService.create_user_subscription` as a table operation. -/
def createUserSubscription (db : SubDB) (uid reports_count : Int) : SubDB :=
  putSub db uid (createUserSubscriptionRow (db uid) uid reports_count)

/-- `PaymentService.can_user_generate_report`. -/
def canUserGenerateReport (db : SubDB) (uid : Int) : Bool :=
  match db uid with
  | none => false
  | some s => canGenerateReport s

/-- `PaymentService.use_user_report`: select the row; absent ⇒ `false`;
otherwise `use_report` and commit on success. -/
def useUserReport (db : SubDB) (uid : Int) : Bool × SubDB :=
  match db uid with
  | none => (false, db)
  | some s =>
      let r := useReport s
      if r.1 then (true, putSub db uid r.2) else (false, db)

/-! ### Payment flow (`src/payment_service.py` PaymentService,
`src/models.py` Payment) -/

/-- Tariff constants of `PaymentService`. -/
def SINGLE_REPORT_PRICE : Int := 200

/-- `PaymentService.BULK_REPORTS_PRICE`. -/
def BULK_REPORTS_PRICE : Int := 10000

/-- `PaymentService.BULK_REPORTS_COUNT`. -/
def BULK_REPORTS_COUNT : Int := 100

/-- A row of `payments` (`models.Payment`).  `completed_at` is an
opaque timestamp, `none` until completion. -/
structure Payment where
  id : Int
  user_id : Int
  amount : Int
  payment_type : PyStr
  reports_count : Int
  status : PyStr
  completed_at : Option Int
deriving DecidableEq, Repr

/-- The `payments` table keyed by `id`. -/
def PayDB : Type := Int → Option Payment

/-- Point update of a payment row. -/
def putPay (db : PayDB) (pid : Int) (p : Payment) : PayDB :=
  fun v => if v = pid then some p else db v

/-- The persistent state touched by the payment flow: the `payments`
table and the `user_subscriptions` table. -/
structure PayState where
  payments : PayDB
  subs : SubDB

/-- `PaymentService.create_payment`: tier dispatch.  An unknown tier
raises `ValueError`, modelled as `Except.error`; otherwise the new
pending payment row (with the server-assigned id `pid`) is returned and
inserted. -/
def createPayment (st : PayState) (pid uid : Int) (payment_type : PyStr) :
    Except PyStr (Payment × PayState) :=
  if payment_type = "single".toList then
    let p : Payment :=
      { id := pid, user_id := uid, amount := SINGLE_REPORT_PRICE,
        payment_type := payment_type, reports_count := 1,
        status := "pending".toList, completed_at := none }
    .ok (p, { st with payments := putPay st.payments pid p })
  else if payment_type = "bulk".toList then
    let p : Payment :=
      { id := pid, user_id := uid, amount := BULK_REPORTS_PRICE,
        payment_type := payment_type, reports_count := BULK_REPORTS_COUNT,
        status := "pending".toList, completed_at := none }
    .ok (p, { st with payments := putPay st.payments pid p })
  else .error "unknown payment type".toList

/-- `PaymentService.complete_payment`: look up the payment; absent ⇒
`false`; status ≠ pending ⇒ `false` with no mutation; otherwise flip the
status to completed, stamp `completed_at` with the current time `now`,
and apply one ledger grant of `reports_count` via
`create_user_subscription`. -/
def completePayment (st : PayState) (pid now : Int) : Bool × PayState :=
  match st.payments pid with
  | none => (false, st)
  | some p =>
    if p.status ≠ "pending".toList then (false, st)
    else
      let p2 := { p with status := "completed".toList, completed_at := some now }
      (true, { payments := putPay st.payments pid p2,
               subs := createUserSubscription st.subs p.user_id p.reports_count })

/-! ### Ticket store (`src/db_adapter.py` DatabaseAdapter) -/

/-- A row of `tickets` (`models.Ticket` / the dicts returned by
`db_adapter`).  `created_at` is an opaque timestamp. -/
structure Ticket where
  id : Int
  vin : PyStr
  user_id : Int
  status : PyStr
  assignee_id : Option Int
  created_at : Int
deriving DecidableEq, Repr

/-- The `tickets` table keyed by `id`. -/
def TicketDB : Type := Int → Option Ticket

/-- Point update of a ticket row. -/
def putTicket (db : TicketDB) (tid : Int) (t : Ticket) : TicketDB :=
  fun v => if v = tid then some t else db v

/-- The two interchangeable storage backends selected at startup
(`DatabaseAdapter.use_supabase`). -/
inductive Backend
  | sqlite
  | supabase
deriving DecidableEq, Repr

/-- Python truthiness of the optional `assignee_id` argument:
`if assignee_id:` is false for `None` and for `0`. -/
def pyTruthy (a : Option Int) : Bool :=
  match a with
  | none => false
  | some x => x ≠ 0

/-- `DatabaseAdapter._update_ticket_sqlite`: look up the row; absent ⇒
`false`; otherwise set `status`, set `assignee_id` only when the
argument is truthy, commit, return `true`. -/
def updateTicketSqlite (db : TicketDB) (tid : Int) (status : PyStr)
    (assignee_id : Option Int) : Bool × TicketDB :=
  match db tid with
  | none => (false, db)
  | some t =>
      let t2 := { t with
        status := status,
        assignee_id := if pyTruthy assignee_id then assignee_id else t.assignee_id }
      (true, putTicket db tid t2)

/-- `DatabaseAdapter._update_ticket_supabase`: updates only the
`status` column (the `assignee_id` write is commented out in the
source); returns `true` iff the `eq('id', ticket_id)` filter matched a
row. -/
def updateTicketSupabase (db : TicketDB) (tid : Int) (status : PyStr)
    (_assignee_id : Option Int) : Bool × TicketDB :=
  match db tid with
  | none => (false, db)
  | some t => (true, putTicket db tid { t with status := status })

/-- `DatabaseAdapter.update_ticket_status`: dispatch on the configured
backend. -/
def updateTicketStatus (b : Backend) (db : TicketDB) (tid : Int)
    (status : PyStr) (assignee_id : Option Int) : Bool × TicketDB :=
  match b with
  | .sqlite => updateTicketSqlite db tid status assignee_id
  | .supabase => updateTicketSupabase db tid status assignee_id

/-- `DatabaseAdapter.create_ticket` (either backend): insert a fresh row
with status `NEW` and no assignee at the server-assigned id `tid`. -/
def createTicket (db : TicketDB) (tid : Int) (vin : PyStr) (uid now : Int) :
    Ticket × TicketDB :=
  let t : Ticket :=
    { id := tid, vin := vin, user_id := uid, status := "NEW".toList,
      assignee_id := none, created_at := now }
  (t, putTicket db tid t)

/-! ### Ticket lifecycle controller
(`src/handlers/callbacks.py` handle_take_ticket,
`src/handlers/manager.py` _process_ticket_completion,
`src/handlers/user.py` handle_vin_message) -/

/-- Outcome reported by `handle_take_ticket` through
`callback.answer`. -/
inductive TakeOutcome
  | notFound
  | alreadyHandled
  | assigned
deriving DecidableEq, Repr

/-- `handle_take_ticket` (src/handlers/callbacks.py), its core after
the chat/format checks: fetch the ticket (the bounded retry loop over
`get_ticket` is the identity in this sequential model); absent ⇒ "not
found"; status ≠ `NEW` ⇒ "already assigned or completed" with no
mutation; otherwise `update_ticket_status(id, "TAKEN", manager_id)` and
answer "assigned to you". -/
def handleTakeTicket (b : Backend) (db : TicketDB) (tid manager_id : Int) :
    TakeOutcome × TicketDB :=
  match db tid with
  | none => (.notFound, db)
  | some t =>
      if t.status ≠ "NEW".toList then (.alreadyHandled, db)
      else (.assigned, (updateTicketStatus b db tid "TAKEN".toList (some manager_id)).2)

/-- Outcome reported by `_process_ticket_completion` to the manager. -/
inductive FulfillOutcome
  | notFound
  | alreadyDone
  | completed
deriving DecidableEq, Repr

/-- `_process_ticket_completion` (src/handlers/manager.py): look up the
ticket; absent ⇒ "not found"; status = `DONE` ⇒ "already closed" with no
mutation; otherwise set status to `DONE` and assignee to the fulfilling
manager, commit, then forward the document (delivery is outside the
state model). -/
def processTicketCompletion (db : TicketDB) (tid manager_id : Int) :
    FulfillOutcome × TicketDB :=
  match db tid with
  | none => (.notFound, db)
  | some t =>
      if t.status = "DONE".toList then (.alreadyDone, db)
      else (.completed,
            putTicket db tid
              { t with status := "DONE".toList, assignee_id := some manager_id })

/-- Outcome of `handle_vin_message` toward the requester. -/
inductive SubmitOutcome
  | emptyMessage
  | invalidVin
  | paymentOptions
  | useReportError
  | createFailed
  | accepted (ticket_id : Int)
deriving DecidableEq, Repr

/-- The state touched by the submit flow: the subscription ledger and
the ticket store, plus the id the store will assign to the next
ticket. -/
structure SubmitState where
  subs : SubDB
  tickets : TicketDB
  next_ticket_id : Int

/-- `handle_vin_message` (src/handlers/user.py), its persistent-state
core.  `create_raises` models `db_adapter.create_ticket` raising (the
`except` branch): the handler then reports an error and returns, without
restoring the consumed credit.  Order as in the source: empty check,
VIN validation, `can_user_generate_report`, `use_user_report`, ticket
creation, notifications (outside the state model). -/
def handleVinMessage (st : SubmitState) (uid : Int) (text : PyStr)
    (now : Int) (create_raises : Bool) : SubmitOutcome × SubmitState :=
  let text := pyStrip text
  if text = [] then (.emptyMessage, st)
  else if ¬ (validate text).1 then (.invalidVin, st)
  else
    let vin := normalize text
    if ¬ canUserGenerateReport st.subs uid then (.paymentOptions, st)
    else
      let r := useUserReport st.subs uid
      if ¬ r.1 then (.useReportError, { st with subs := r.2 })
      else
        let st2 : SubmitState := { st with subs := r.2 }
        if create_raises then (.createFailed, st2)
        else
          let c := createTicket st2.tickets st2.next_ticket_id vin uid now
          (.accepted st2.next_ticket_id,
           { st2 with tickets := c.2, next_ticket_id := st2.next_ticket_id + 1 })

/-! ### Reachable ledger states (for the balance invariant) -/

/-- The balance rows reachable for one requester: created by a first
grant (`create_user_subscription` on an absent row), then closed under
further grants with positive counts and under `use_report`
consumptions. -/
inductive ReachableSub (uid : Int) : UserSubscription → Prop
  | created (c : Int) (hc : 0 < c) :
      ReachableSub uid (createUserSubscriptionRow none uid c)
  | grant (s : UserSubscription) (c : Int) (hc : 0 < c) :
      ReachableSub uid s → ReachableSub uid (createUserSubscriptionRow (some s) uid c)
  | consume (s : UserSubscription) :
      ReachableSub uid s → ReachableSub uid (useReport s).2

/-! ### Concrete states used to exercise the operations -/

/-- The spec's sample identifier `1HGBH41JXMN109186`. -/
def vinOk : PyStr := "1HGBH41JXMN109186".toList

/-- The sample identifier with a leading blank (raw length 18). -/
def vinPadded : PyStr := " 1HGBH41JXMN109186".toList

/-- A ledger with one row: user 7 has 2 of 5 reports left. -/
def subsEx : SubDB := fun v => if v = 7 then some ⟨7, 2, 5⟩ else none

/-- Scenario E's prior ledger: user 7 has 3 remaining of 5 total. -/
def subsE : SubDB := fun v => if v = 7 then some ⟨7, 3, 5⟩ else none

/-- A pending bulk-tier payment (id 1) for user 7. -/
def payment1 : Payment :=
  { id := 1, user_id := 7, amount := 10000, payment_type := "bulk".toList,
    reports_count := 100, status := "pending".toList, completed_at := none }

/-- Payment-flow state: the pending bulk payment plus scenario E's
ledger. -/
def payEx : PayState :=
  { payments := fun v => if v = 1 then some payment1 else none,
    subs := subsE }

/-- A fresh `NEW` ticket (id 1) for user 7. -/
def ticketNew : Ticket :=
  { id := 1, vin := vinOk, user_id := 7, status := "NEW".toList,
    assignee_id := none, created_at := 0 }

/-- A finished `DONE` ticket (id 2) assigned to operator 55. -/
def ticketDone : Ticket :=
  { id := 2, vin := vinOk, user_id := 7, status := "DONE".toList,
    assignee_id := some 55, created_at := 0 }

/-- A ticket table holding `ticketNew` and `ticketDone`. -/
def tdbEx : TicketDB :=
  fun v => if v = 1 then some ticketNew else if v = 2 then some ticketDone else none

/-- Submit-flow state: user 7 has credit, no tickets yet. -/
def submitEx : SubmitState :=
  { subs := subsEx, tickets := fun _ => none, next_ticket_id := 1 }

/-! ### C1 — consume semantics of the credit ledger -/

/-- C1: for every requester id, `PaymentService.use_user_report` returns
`true` and decrements that requester's `reports_remaining` by exactly
one (touching no other row) when a balance row exists with
`reports_remaining > 0`; it returns `false` and leaves the whole table
unchanged when no row exists or `reports_remaining` is 0. -/
theorem useUserReport_spec (db : SubDB) (uid : Int) :
    (∀ s, db uid = some s → 0 < s.reports_remaining →
      (useUserReport db uid).1 = true ∧
      (useUserReport db uid).2 uid =
        some { s with reports_remaining := s.reports_remaining - 1 } ∧
      ∀ v, v ≠ uid → (useUserReport db uid).2 v = db v) ∧
    (db uid = none → useUserReport db uid = (false, db)) ∧
    (∀ s, db uid = some s → s.reports_remaining = 0 →
      useUserReport db uid = (false, db)) := by
  refine ⟨?_, ?_, ?_⟩
  · intro s hs hpos
    refine ⟨?_, ?_, ?_⟩
    · simp [useUserReport, hs, useReport, hpos]
    · simp [useUserReport, hs, useReport, hpos, putSub]
    · intro v hv
      simp [useUserReport, hs, useReport, hpos, putSub, hv]
  · intro h
    simp [useUserReport, h]
  · intro s hs h0
    simp [useUserReport, hs, useReport, h0]

/-- C1 witness: on the concrete ledger `subsEx` (user 7 holds 2 of 5),
consuming succeeds, leaves 1 of 5, and does not touch user 8's (absent)
row. -/
theorem useUserReport_spec_witness :
    (useUserReport subsEx 7).1 = true ∧
    (useUserReport subsEx 7).2 7 = some ⟨7, 1, 5⟩ ∧
    (useUserReport subsEx 7).2 8 = subsEx 8 := by
  have h := (useUserReport_spec subsEx 7).1 ⟨7, 2, 5⟩ (by decide) (by decide)
  exact ⟨h.1, h.2.1, h.2.2 8 (by decide)⟩

/-! ### C5 — grant semantics of the credit ledger -/

/-- C5: `PaymentService.create_user_subscription` creates a row with
`remaining = total = count` when none exists for the requester, and
otherwise adds `count` to both counters (touching no other row); in
particular a bulk-tier completion (100 credits) on a prior balance of
3 remaining / 5 total yields 103 remaining / 105 total. -/
theorem createUserSubscription_spec (db : SubDB) (uid c : Int) :
    (db uid = none →
      createUserSubscription db uid c uid = some ⟨uid, c, c⟩) ∧
    (∀ s, db uid = some s →
      createUserSubscription db uid c uid =
        some { s with reports_remaining := s.reports_remaining + c,
                      total_reports := s.total_reports + c }) ∧
    (∀ v, v ≠ uid → createUserSubscription db uid c v = db v) ∧
    (completePayment payEx 1 99).2.subs 7 = some ⟨7, 103, 105⟩ := by
  refine ⟨?_, ?_, ?_, by decide⟩
  · intro h
    simp [createUserSubscription, createUserSubscriptionRow, h, putSub]
  · intro s hs
    simp [createUserSubscription, createUserSubscriptionRow, hs, putSub]
  · intro v hv
    simp [createUserSubscription, putSub, hv]

/-- C5 witness: granting 100 to user 7 on the concrete ledger `subsE`
(3 of 5) yields 103 of 105; granting 100 to absent user 9 creates a
fresh 100-of-100 row; user 8's row is untouched. -/
theorem createUserSubscription_spec_witness :
    createUserSubscription subsE 7 100 7 = some ⟨7, 103, 105⟩ ∧
    createUserSubscription subsE 9 100 9 = some ⟨9, 100, 100⟩ ∧
    createUserSubscription subsE 7 100 8 = subsE 8 := by
  refine ⟨?_, ?_, ?_⟩
  · have h := (createUserSubscription_spec subsE 7 100).2.1 ⟨7, 3, 5⟩ (by decide)
    simpa using h
  · exact (createUserSubscription_spec subsE 9 100).1 (by decide)
  · exact (createUserSubscription_spec subsE 7 100).2.2.1 8 (by decide)

/-! ### C6 — balance invariant under grant/consume sequences -/

/-- `use_report` never changes `total_reports`. -/
theorem useReport_total (s : UserSubscription) :
    ((useReport s).2).total_reports = s.total_reports := by
  simp only [useReport]
  split <;> rfl

/-- C6: every balance row reachable from its creation by grants with
positive counts and consumptions satisfies
`0 ≤ reports_remaining ≤ total_reports`, and neither a further grant
nor a consumption decreases `total_reports`. -/
theorem reachableSub_invariant (uid : Int) (s : UserSubscription)
    (h : ReachableSub uid s) :
    (0 ≤ s.reports_remaining ∧ s.reports_remaining ≤ s.total_reports) ∧
    (∀ c, 0 < c →
      s.total_reports ≤ (createUserSubscriptionRow (some s) uid c).total_reports) ∧
    s.total_reports ≤ ((useReport s).2).total_reports := by
  induction h with
  | created c hc =>
      refine ⟨⟨by simp [createUserSubscriptionRow]; omega,
               by simp [createUserSubscriptionRow]⟩, ?_, ?_⟩
      · intro d hd
        simp [createUserSubscriptionRow]
        omega
      · simp [useReport, createUserSubscriptionRow]
        split <;> simp
  | grant s c hc _ ih =>
      obtain ⟨⟨h0, h1⟩, _, _⟩ := ih
      refine ⟨⟨?_, ?_⟩, ?_, ?_⟩
      · simp [createUserSubscriptionRow]; omega
      · simp [createUserSubscriptionRow]; omega
      · intro d hd
        simp [createUserSubscriptionRow]
        omega
      · simp [useReport, createUserSubscriptionRow]
        split <;> simp
  | consume s _ ih =>
      obtain ⟨⟨h0, h1⟩, _, _⟩ := ih
      refine ⟨⟨?_, ?_⟩, ?_, ?_⟩
      · simp only [useReport]
        split <;> simp <;> omega
      · simp only [useReport]
        split <;> simp <;> omega
      · intro d hd
        simp [createUserSubscriptionRow, useReport_total]
        omega
      · simp [useReport_total]

/-- C6 witness: the row obtained by creating with 5, granting 3 and
consuming once is reachable, and the invariant holds of it. -/
theorem reachableSub_invariant_witness :
    (0 ≤ (useReport (createUserSubscriptionRow
        (some (createUserSubscriptionRow none 7 5)) 7 3)).2.reports_remaining ∧
     (useReport (createUserSubscriptionRow
        (some (createUserSubscriptionRow none 7 5)) 7 3)).2.reports_remaining ≤
     (useReport (createUserSubscriptionRow
        (some (createUserSubscriptionRow none 7 5)) 7 3)).2.total_reports) := by
  have h := reachableSub_invariant 7 _
    (ReachableSub.consume _ (ReachableSub.grant _ 3 (by decide)
      (ReachableSub.created 5 (by decide))))
  exact h.1

/-! ### C2 — payment completion -/

/-- C2: `PaymentService.complete_payment` returns `false` when the
payment id is absent; returns `false` with no mutation when the status
is not pending; otherwise returns `true`, sets the status to completed
and the completion timestamp, and applies exactly one ledger grant of
the payment's report count (which `create_payment` sets to the tier's
count: 1 for single, 100 for bulk).  Calling it again on the resulting
state returns `false` and changes nothing. -/
theorem completePayment_spec (st : PayState) (pid now now2 : Int) :
    (st.payments pid = none → completePayment st pid now = (false, st)) ∧
    (∀ p, st.payments pid = some p → p.status ≠ "pending".toList →
      completePayment st pid now = (false, st)) ∧
    (∀ p, st.payments pid = some p → p.status = "pending".toList →
      (completePayment st pid now).1 = true ∧
      (completePayment st pid now).2.payments pid =
        some { p with status := "completed".toList, completed_at := some now } ∧
      (completePayment st pid now).2.subs =
        createUserSubscription st.subs p.user_id p.reports_count ∧
      completePayment (completePayment st pid now).2 pid now2 =
        (false, (completePayment st pid now).2)) ∧
    (∀ uid q st2, createPayment st pid uid "single".toList = .ok (q, st2) →
      q.reports_count = 1) ∧
    (∀ uid q st2, createPayment st pid uid "bulk".toList = .ok (q, st2) →
      q.reports_count = 100) := by
  refine ⟨?_, ?_, ?_, ?_, ?_⟩
  · intro h
    simp [completePayment, h]
  · intro p hp hstat
    have hstat2 : ¬ p.status = "pending".toList := hstat
    simp at hstat2
    simp [completePayment, hp, hstat2]
  · intro p hp hstat
    refine ⟨?_, ?_, ?_, ?_⟩
    · simp [completePayment, hp, hstat]
    · simp [completePayment, hp, hstat, putPay]
    · simp [completePayment, hp, hstat]
    · have h2 : (completePayment st pid now).2.payments pid =
          some { p with status := "completed".toList, completed_at := some now } := by
        simp [completePayment, hp, hstat, putPay]
      simp [completePayment, hp, hstat, putPay]
  · intro uid q st2 h
    simp only [createPayment, if_pos rfl] at h
    obtain ⟨hq, -⟩ := Prod.mk.injEq .. ▸ Except.ok.inj h
    simp [← hq]
  · intro uid q st2 h
    have hne : ("bulk".toList : PyStr) ≠ "single".toList := by decide
    simp only [createPayment, if_neg hne, if_pos rfl] at h
    obtain ⟨hq, -⟩ := Prod.mk.injEq .. ▸ Except.ok.inj h
    simp [← hq, BULK_REPORTS_COUNT]

/-- C2 witness: on the concrete state `payEx` (pending bulk payment 1
of user 7), completion succeeds, flips the status, stamps the time, and
a repeated completion fails with no further change. -/
theorem completePayment_spec_witness :
    (completePayment payEx 1 99).1 = true ∧
    (completePayment payEx 1 99).2.payments 1 =
      some { payment1 with status := "completed".toList, completed_at := some 99 } ∧
    completePayment (completePayment payEx 1 99).2 1 100 =
      (false, (completePayment payEx 1 99).2) := by
  have h := (completePayment_spec payEx 1 99 100).2.2.1 payment1 (by decide) (by decide)
  exact ⟨h.1, h.2.1, h.2.2.2⟩

/-! ### C7 — characterization of validate's acceptance -/

/-- C7: `VINValidator.validate` accepts exactly the non-empty strings
whose normalized form (stripped of surrounding whitespace and
uppercased) has length 17, contains none of I, O, Q, and consists of
accepted alphabet characters at all 17 positions. -/
theorem validate_ok_iff (vin : PyStr) :
    (validate vin).1 = true ↔
      (vin ≠ [] ∧ (normalize vin).length = 17 ∧
       (∀ c ∈ normalize vin, ¬ forbiddenChar c) ∧
       (∀ c ∈ normalize vin, vinAlphabetChar c)) := by
  by_cases h0 : vin = []
  · simp [validate, h0]
  · by_cases h1 : (normalize vin).length = 17
    · by_cases h2 : (normalize vin).any forbiddenChar
      · have hval : (validate vin).1 = false := by
          simp [validate, h0, h1, h2]
        rw [List.any_eq_true] at h2
        obtain ⟨c, hc, hfc⟩ := h2
        rw [hval]
        simp only [Bool.false_eq_true, false_iff]
        rintro ⟨-, -, hforb, -⟩
        exact hforb c hc hfc
      · by_cases h3 : (normalize vin).all vinAlphabetChar
        · have hval : (validate vin).1 = true := by
            simp [validate, h0, h1, h2, h3]
          rw [List.all_eq_true] at h3
          rw [List.any_eq_true] at h2
          push_neg at h2
          rw [hval]
          simp only [true_iff]
          exact ⟨h0, h1, h2, h3⟩
        · have hval : (validate vin).1 = false := by
            simp [validate, h0, h1, h2, h3]
          rw [List.all_eq_true] at h3
          rw [hval]
          simp only [Bool.false_eq_true, false_iff]
          rintro ⟨-, -, -, halph⟩
          exact h3 halph
    · have hval : (validate vin).1 = false := by
        simp [validate, h0, h1]
      rw [hval]
      simp only [Bool.false_eq_true, false_iff]
      rintro ⟨-, hlen, -, -⟩
      exact h1 hlen

/-- C7 witness: `validate` accepts the spec's sample identifier. -/
theorem validate_ok_iff_witness : (validate vinOk).1 = true :=
  (validate_ok_iff vinOk).mpr ⟨by decide, by decide, by decide, by decide⟩

/-! ### C8 — the wrong-length failure category -/

/-- C8 counterexample: the claim quantifies over the raw string's
length.  The 18-character input `" 1HGBH41JXMN109186"` (a leading
blank) is accepted because the length test runs on the stripped,
normalized form; and the empty string (length 0 ≠ 17) fails with the
empty category, not the wrong-length category. -/
theorem validate_length_counterexample :
    (vinPadded.length ≠ 17 ∧ (validate vinPadded).1 = true) ∧
    (([] : PyStr).length ≠ 17 ∧ (validate []).2 = some VinError.empty ∧
      VinError.empty ≠ VinError.wrongLength) := by
  decide

/-- C8 amended: for every string whose NORMALIZED form's length is not
17, `validate` returns not-ok, with the empty category when the string
is empty and the wrong-length category otherwise. -/
theorem validate_wrong_length (vin : PyStr)
    (h : (normalize vin).length ≠ 17) :
    (validate vin).1 = false ∧
    (validate vin).2 =
      some (if vin = [] then VinError.empty else VinError.wrongLength) := by
  by_cases h0 : vin = [] <;> simp [validate, h0, h]

/-- C8 amended witness: the one-character input `"A"` normalizes to
length 1 and fails with the wrong-length category. -/
theorem validate_wrong_length_witness :
    (validate ['A']).1 = false ∧
    (validate ['A']).2 = some VinError.wrongLength := by
  have h := validate_wrong_length ['A'] (by decide)
  simpa using h

/-! ### C3 — the claim (take-ticket) operation -/

/-- C3 counterexample: under the Supabase backend the `assignee_id`
write in `_update_ticket_supabase` is commented out, so a successful
claim by operator 99 on the `NEW` ticket 1 flips the status to `TAKEN`
but leaves the assignee unset, contradicting "sets the assignee to the
claiming operator". -/
theorem handleTakeTicket_counterexample :
    tdbEx 1 = some ticketNew ∧ ticketNew.status = "NEW".toList ∧
    (handleTakeTicket Backend.supabase tdbEx 1 99).1 = TakeOutcome.assigned ∧
    (handleTakeTicket Backend.supabase tdbEx 1 99).2 1 =
      some { ticketNew with status := "TAKEN".toList, assignee_id := none } ∧
    (handleTakeTicket Backend.supabase tdbEx 1 99).2 1 ≠
      some { ticketNew with status := "TAKEN".toList, assignee_id := some 99 } := by
  decide

/-- C3 amended: the claim operation succeeds only when the ticket
exists with status exactly `NEW`; on success it sets the status to
`TAKEN` and — under the SQLite backend, for a non-zero operator id —
sets the assignee to the claiming operator, while the Supabase backend
leaves the assignee unchanged; a claim on a `TAKEN` or `DONE` ticket is
rejected with an explicit refusal and no mutation. -/
theorem handleTakeTicket_spec (b : Backend) (db : TicketDB) (tid op : Int) :
    (db tid = none → handleTakeTicket b db tid op = (.notFound, db)) ∧
    (∀ t, db tid = some t → t.status ≠ "NEW".toList →
      handleTakeTicket b db tid op = (.alreadyHandled, db)) ∧
    (∀ t, db tid = some t → t.status = "NEW".toList →
      (handleTakeTicket b db tid op).1 = .assigned ∧
      (handleTakeTicket b db tid op).2 tid =
        some { t with
               status := "TAKEN".toList,
               assignee_id := (match b with
                 | .sqlite => if op ≠ 0 then some op else t.assignee_id
                 | .supabase => t.assignee_id) } ∧
      ∀ v, v ≠ tid → (handleTakeTicket b db tid op).2 v = db v) := by
  refine ⟨?_, ?_, ?_⟩
  · intro h
    simp [handleTakeTicket, h]
  · intro t ht hstat
    have hstat2 : ¬ t.status = "NEW".toList := hstat
    simp at hstat2
    simp [handleTakeTicket, ht, hstat2]
  · intro t ht hstat
    have hstat2 : t.status = "NEW".toList := hstat
    simp at hstat2
    cases b with
    | sqlite =>
        by_cases hop : op = 0
        · refine ⟨?_, ?_, ?_⟩
          · simp [handleTakeTicket, ht, hstat2]
          · simp [handleTakeTicket, ht, hstat2, updateTicketStatus,
                  updateTicketSqlite, pyTruthy, hop, putTicket]
          · intro v hv
            simp [handleTakeTicket, ht, hstat2, updateTicketStatus,
                  updateTicketSqlite, pyTruthy, hop, putTicket, hv]
        · refine ⟨?_, ?_, ?_⟩
          · simp [handleTakeTicket, ht, hstat2]
          · simp [handleTakeTicket, ht, hstat2, updateTicketStatus,
                  updateTicketSqlite, pyTruthy, hop, putTicket]
          · intro v hv
            simp [handleTakeTicket, ht, hstat2, updateTicketStatus,
                  updateTicketSqlite, pyTruthy, hop, putTicket, hv]
    | supabase =>
        refine ⟨?_, ?_, ?_⟩
        · simp [handleTakeTicket, ht, hstat2]
        · simp [handleTakeTicket, ht, hstat2, updateTicketStatus,
                updateTicketSupabase, putTicket]
        · intro v hv
          simp [handleTakeTicket, ht, hstat2, updateTicketStatus,
                updateTicketSupabase, putTicket, hv]

/-- C3 amended witness: under the SQLite backend, operator 99's claim
on the `NEW` ticket 1 succeeds and records operator 99 as assignee; the
claim on the `DONE` ticket 2 is refused with no mutation. -/
theorem handleTakeTicket_spec_witness :
    (handleTakeTicket Backend.sqlite tdbEx 1 99).1 = TakeOutcome.assigned ∧
    (handleTakeTicket Backend.sqlite tdbEx 1 99).2 1 =
      some { ticketNew with status := "TAKEN".toList, assignee_id := some 99 } ∧
    handleTakeTicket Backend.sqlite tdbEx 2 99 = (TakeOutcome.alreadyHandled, tdbEx) := by
  have h1 := (handleTakeTicket_spec Backend.sqlite tdbEx 1 99).2.2
    ticketNew (by decide) (by decide)
  have h2 := (handleTakeTicket_spec Backend.sqlite tdbEx 2 99).2.1
    ticketDone (by decide) (by decide)
  exact ⟨h1.1, by simpa using h1.2.1, h2⟩

/-! ### C4 — DONE is terminal -/

/-- C4: for every ticket whose status is `DONE`, both controller
operations — claim (`handle_take_ticket`, either backend) and fulfill
(`_process_ticket_completion`) — are rejected and leave the whole
ticket table unchanged. -/
theorem done_terminal (b : Backend) (db : TicketDB) (tid op : Int)
    (t : Ticket) (ht : db tid = some t) (hd : t.status = "DONE".toList) :
    handleTakeTicket b db tid op = (.alreadyHandled, db) ∧
    processTicketCompletion db tid op = (.alreadyDone, db) := by
  have hd2 : t.status = "DONE".toList := hd
  simp at hd2
  constructor
  · have hne : ¬ t.status = "NEW".toList := by
      rw [hd]
      decide
    have hne2 : ¬ t.status = "NEW".toList := hne
    simp at hne2
    simp [handleTakeTicket, ht, hne2]
  · simp [processTicketCompletion, ht, hd2]

/-- C4 witness: on the concrete table, both the claim and the fulfill
of the `DONE` ticket 2 are refused with no change. -/
theorem done_terminal_witness :
    handleTakeTicket Backend.sqlite tdbEx 2 99 =
      (TakeOutcome.alreadyHandled, tdbEx) ∧
    processTicketCompletion tdbEx 2 99 = (FulfillOutcome.alreadyDone, tdbEx) :=
  done_terminal Backend.sqlite tdbEx 2 99 ticketDone (by decide) (by decide)

/-! ### C9 — frame of updateStatus -/

/-- C9: `DatabaseAdapter.update_ticket_status` (both backends), on an
existing ticket, returns `true` and mutates at most the `status` and
`assignee_id` fields of that row; `vin`, `user_id`, `created_at` (and
`id`) are unchanged by every call, an assignee argument of `0` or
`None` leaves the assignee unchanged, and no other row is touched. -/
theorem updateTicketStatus_frame (b : Backend) (db : TicketDB) (tid : Int)
    (status : PyStr) (aid : Option Int) (t : Ticket) (ht : db tid = some t) :
    (updateTicketStatus b db tid status aid).1 = true ∧
    (∃ t2, (updateTicketStatus b db tid status aid).2 tid = some t2 ∧
      t2.vin = t.vin ∧ t2.user_id = t.user_id ∧ t2.created_at = t.created_at ∧
      t2.id = t.id ∧ t2.status = status ∧
      ((aid = none ∨ aid = some 0) → t2.assignee_id = t.assignee_id)) ∧
    (∀ v, v ≠ tid → (updateTicketStatus b db tid status aid).2 v = db v) := by
  cases b with
  | sqlite =>
      refine ⟨by simp [updateTicketStatus, updateTicketSqlite, ht], ?_, ?_⟩
      · refine ⟨{ t with
            status := status,
            assignee_id := if pyTruthy aid then aid else t.assignee_id },
          by simp [updateTicketStatus, updateTicketSqlite, ht, putTicket],
          rfl, rfl, rfl, rfl, rfl, ?_⟩
        rintro (rfl | rfl) <;> simp [pyTruthy]
      · intro v hv
        simp [updateTicketStatus, updateTicketSqlite, ht, putTicket, hv]
  | supabase =>
      refine ⟨by simp [updateTicketStatus, updateTicketSupabase, ht], ?_, ?_⟩
      · exact ⟨{ t with status := status },
          by simp [updateTicketStatus, updateTicketSupabase, ht, putTicket],
          rfl, rfl, rfl, rfl, rfl, fun _ => rfl⟩
      · intro v hv
        simp [updateTicketStatus, updateTicketSupabase, ht, putTicket, hv]

/-- C9 witness: updating ticket 1 to `TAKEN` with assignee argument 0
(SQLite backend) succeeds, rewrites the status, and leaves the vin,
requester, creation time and assignee as they were. -/
theorem updateTicketStatus_frame_witness :
    (updateTicketStatus Backend.sqlite tdbEx 1 "TAKEN".toList (some 0)).1 = true ∧
    (updateTicketStatus Backend.sqlite tdbEx 1 "TAKEN".toList (some 0)).2 2 = tdbEx 2 := by
  have h := updateTicketStatus_frame Backend.sqlite tdbEx 1 "TAKEN".toList
    (some 0) ticketNew (by decide)
  exact ⟨h.1, h.2.2 2 (by decide)⟩

/-! ### C10 — consumed credit is not restored on creation failure -/

/-- C10: in the submit flow (`handle_vin_message`), a requester with
available credit has exactly one credit consumed before the ticket is
created; when ticket creation then raises, the handler reports an error
but the consumed credit stays spent — the balance remains decremented
by one — and the ticket table is unchanged (no ticket exists). -/
theorem submit_no_refund (st : SubmitState) (uid now : Int) (text : PyStr)
    (s : UserSubscription) (hs : st.subs uid = some s)
    (hpos : 0 < s.reports_remaining)
    (hvalid : (validate (pyStrip text)).1 = true) :
    (handleVinMessage st uid text now true).1 = SubmitOutcome.createFailed ∧
    (handleVinMessage st uid text now true).2.subs uid =
      some { s with reports_remaining := s.reports_remaining - 1 } ∧
    (handleVinMessage st uid text now true).2.tickets = st.tickets := by
  have hne : ¬ pyStrip text = [] := by
    intro h
    rw [h] at hvalid
    simp [validate] at hvalid
  have hcan : canUserGenerateReport st.subs uid = true := by
    simp [canUserGenerateReport, hs, canGenerateReport, hpos]
  refine ⟨?_, ?_, ?_⟩ <;>
    simp [handleVinMessage, hne, hvalid, hcan, useUserReport, hs, useReport,
          hpos, putSub]

/-- C10 witness: user 7 (2 of 5 reports) submits the sample identifier
and ticket creation raises: the outcome is the creation-failure error,
and the balance is now 1 of 5 with the ticket table untouched. -/
theorem submit_no_refund_witness :
    (handleVinMessage submitEx 7 vinOk 0 true).1 = SubmitOutcome.createFailed ∧
    (handleVinMessage submitEx 7 vinOk 0 true).2.subs 7 = some ⟨7, 1, 5⟩ := by
  have h := submit_no_refund submitEx 7 0 vinOk ⟨7, 2, 5⟩ (by decide) (by decide)
    (by decide)
  exact ⟨h.1, by simpa using h.2.1⟩

end VinCar
